import Mathlib

/-!
# consultaCNPJmultiplos: the batch lookup of `src/App.js`

A shallow embedding of the asynchronous functions of the `App` component:
`fetchCnpjData`, `fetchCnpjDataBatchWithInterval`, `processarLotes`,
`lerArquivo` and `processarCnpjs`.

Every `await` is a sequential suspension point, so the functions are modelled
as state-passing functions over a chronological log (`Traco`) of what the run
did: the HTTP requests together with the answers received, and the waits.
The lookup API is a parameter `api k url`: the answer given to the request for
`url` issued after `k` earlier requests of the run, so that every sequence of
answers is the behaviour of some `api`.  Loops that the source bounds by a
counter are given fuel; running out of fuel is the outer `none`, and the
theorems show it never happens.  Console output is not modelled, except for
the announcement of a group (line 81), which the log keeps together with the
members of the group.
-/

namespace ConsultaCNPJ

/-! ## Data model -/

/-- Value of a field of the decoded JSON body.  `composto` stands for arrays
and objects, which JavaScript always treats as true; it carries the JSON text
of the value as `JSON.stringify` writes it, so that the empty array is
`composto "[]"` and the empty object `composto "{}"`. -/
inductive Valor where
  | nulo
  | booleano (b : Bool)
  | numero (n : Int)
  | texto (s : String)
  | composto (json : String)
  deriving DecidableEq, Repr

/-- JavaScript truthiness (`ToBoolean`) of a possibly absent field. -/
def verdadeiro : Option Valor → Bool
  | none => false
  | some .nulo => false
  | some (.booleano b) => b
  | some (.numero n) => n != 0
  | some (.texto s) => s != ""
  | some (.composto _) => true

/-- Outcome of `await response.json()` (line 28) as seen by line 29. -/
inductive Corpo where
  /-- `response.json()` rejects with an error carrying this message. -/
  | invalido (msg : String)
  /-- the body is JSON `null`: reading `data.cnpj` throws a `TypeError` with
  this (engine-specific) message. -/
  | nulo (msg : String)
  /-- any other value that is not an object with fields: both reads give `undefined`. -/
  | primitivo
  /-- an object; `none` is an absent field. -/
  | objeto (cnpj situacao : Option Valor)
  deriving DecidableEq, Repr

/-- Outcome of `await fetch(url)` (line 24). -/
inductive Resposta where
  /-- `fetch` rejects (network failure) with an error carrying this message. -/
  | falha (msg : String)
  /-- a response arrived, with `response.ok`, `response.status` and its body. -/
  | http (ok : Bool) (status : Nat) (corpo : Corpo)
  deriving DecidableEq, Repr

/-- Cell of a spreadsheet row as produced by `XLSX.utils.sheet_to_json`.  A
numeric cell is given by the text that JavaScript's conversion of the number to
a string produces for it ("14", "0.5", "1e+21"). -/
inductive Celula where
  | texto (s : String)
  | numero (comoTexto : String)
  | booleano (b : Bool)
  deriving DecidableEq, Repr

/-- What `lerArquivo` hands to `processarLotes` as one "cnpj": a trimmed line of
a text file, or (spreadsheet input) an element of the filtered row array. -/
inductive Identificador where
  | texto (s : String)
  | linha (celulas : List Celula)
  deriving DecidableEq, Repr

/-- The record returned at line 30. -/
structure Resultado where
  cnpj : Valor
  situacao : Valor
  deriving DecidableEq, Repr

/-- Observable steps of a run. -/
inductive Evento where
  /-- line 24: `fetch(url)` was issued and answered. -/
  | requisicao (url : String) (resposta : Resposta)
  /-- line 38: the backoff wait of `fetchCnpjData`. -/
  | espera (ms : Nat)
  /-- line 42: the extra wait of `fetchCnpjData`. -/
  | esperaAdicional (ms : Nat)
  /-- lines 79-82: group `numero` of `total` starts, with its members. -/
  | lote (numero total : Nat) (membros : List Identificador)
  /-- line 88: the wait between two groups. -/
  | esperaLote (ms : Nat)
  /-- line 90: `setTempoEstimadoTotal`. -/
  | tempoEstimado (ms : Int)
  deriving DecidableEq, Repr

abbrev Traco := List Evento

/-- The lookup API: answer to the request for a URL, given how many requests
the run has issued before it. -/
abbrev Api := Nat → String → Resposta

/-! ## Strings -/

/-- Does the list start with `p`? -/
def comecaCom : List Char → List Char → Bool
  | [], _ => true
  | _ :: _, [] => false
  | p :: ps, c :: cs => p == c && comecaCom ps cs

/-- Does `p` occur in the list as a contiguous block? -/
def ocorreEm (p : List Char) : List Char → Bool
  | [] => comecaCom p []
  | c :: cs => comecaCom p (c :: cs) || ocorreEm p cs

/-- `String.prototype.includes`. -/
def includes (s p : String) : Bool := ocorreEm p.toList s.toList

/-- String coercion of a cell inside a template literal. -/
def Celula.paraTexto : Celula → String
  | .texto s => s
  | .numero comoTexto => comoTexto
  | .booleano b => if b then "true" else "false"

/-- String coercion of an identifier inside a template literal: a string is
itself, an array is its elements joined by commas. -/
def Identificador.paraTexto : Identificador → String
  | .texto s => s
  | .linha cs => ",".intercalate (cs.map Celula.paraTexto)

/-- Line 18. -/
def urlDe (cnpj : Identificador) : String :=
  "https://receitaws.com.br/v1/cnpj/" ++ cnpj.paraTexto

/-! ## fetchCnpjData (lines 17-54) -/

def maxTentativas : Nat := 3

/-- The body of the `try` block, lines 24-33, given the answer of `fetch`:
the record returned, or the message of the error thrown. -/
def corpoDoTry (cnpj : Identificador) : Resposta → Except String Resultado
  | .falha msg => .error msg
  | .http ok status corpo =>
    if !ok then
      .error ("Erro na requisição para CNPJ " ++ cnpj.paraTexto ++ ": " ++ toString status)
    else
      match corpo with
      | .invalido msg => .error msg
      | .nulo msg => .error msg
      | .primitivo => .error ("Resposta inválida para CNPJ " ++ cnpj.paraTexto)
      | .objeto (some c) (some s) =>
        if verdadeiro (some c) && verdadeiro (some s) then .ok ⟨c, s⟩
        else .error ("Resposta inválida para CNPJ " ++ cnpj.paraTexto)
      | .objeto _ _ => .error ("Resposta inválida para CNPJ " ++ cnpj.paraTexto)

def numReq (tr : Traco) : Nat :=
  tr.countP fun e => match e with
    | .requisicao _ _ => true
    | _ => false

/-- The `while` loop of lines 22-50 followed by lines 52-53, started with the
counter at `tentativaAtual`.  The result is `none` for JavaScript `null`. -/
def lacoTentativas (api : Api) (cnpj : Identificador) :
    Nat → Nat → Traco → Option (Option Resultado × Traco)
  | 0, _, _ => none
  | fuel + 1, tentativaAtual, tr =>
    if tentativaAtual ≤ maxTentativas then
      let resposta := api (numReq tr) (urlDe cnpj)
      let tr1 := tr ++ [Evento.requisicao (urlDe cnpj) resposta]
      match corpoDoTry cnpj resposta with
      | .ok r => some (some r, tr1)
      | .error msg =>
        if tentativaAtual < maxTentativas && includes msg "429" then
          let tempoDeEspera := 2 ^ tentativaAtual * 30000
          let tr2 := tr1 ++ [Evento.espera tempoDeEspera]
          let tr3 := if tentativaAtual % 3 = 0 then tr2 ++ [Evento.esperaAdicional 60000] else tr2
          lacoTentativas api cnpj fuel (tentativaAtual + 1) tr3
        else
          some (none, tr1)
    else
      some (none, tr)

def fetchCnpjData (api : Api) (cnpj : Identificador) (tr : Traco) :
    Option (Option Resultado × Traco) :=
  lacoTentativas api cnpj (maxTentativas + 1) 1 tr

/-! ## fetchCnpjDataBatchWithInterval (lines 56-63) -/

/-- The `for ... of` loop of lines 58-61 with `resultados` as accumulator. -/
def lacoDoLote (api : Api) :
    List Identificador → List (Option Resultado) → Traco →
      Option (List (Option Resultado) × Traco)
  | [], resultados, tr => some (resultados, tr)
  | cnpj :: resto, resultados, tr =>
    match fetchCnpjData api cnpj tr with
    | none => none
    | some (resultado, tr1) => lacoDoLote api resto (resultados ++ [resultado]) tr1

def fetchCnpjDataBatchWithInterval (api : Api) (cnpjBatch : List Identificador) (tr : Traco) :
    Option (List (Option Resultado) × Traco) :=
  lacoDoLote api cnpjBatch [] tr

/-! ## processarLotes (lines 65-99) -/

def tamanhoDoLote : Nat := 3

/-- `Math.ceil(a / b)` on non-negative integers (exact for array lengths). -/
def tetoDiv (a b : Nat) : Nat := (a + b - 1) / b

/-- The `for` loop of lines 78-95 followed by line 98. -/
def lacoLotes (api : Api) (cnpjs : List Identificador) (totalLotes : Nat) :
    Nat → Nat → Nat → Int → List (Option Resultado) → Traco →
      Option (List (Option Resultado) × Traco)
  | 0, _, _, _, _, _ => none
  | fuel + 1, i, loteAtual, tempoEstimadoTotal, resultadosFinais, tr =>
    if i < cnpjs.length then
      let lote := (cnpjs.drop i).take tamanhoDoLote
      let tr0 := tr ++ [Evento.lote loteAtual totalLotes lote]
      match fetchCnpjDataBatchWithInterval api lote tr0 with
      | none => none
      | some (resultadosDoLote, tr1) =>
        let finais := resultadosFinais ++ resultadosDoLote
        if i + tamanhoDoLote < cnpjs.length then
          let tempoDeEspera : Nat := 60 * 1000
          let tempo := tempoEstimadoTotal - (tempoDeEspera : Int)
          lacoLotes api cnpjs totalLotes fuel (i + tamanhoDoLote) (loteAtual + 1) tempo finais
            (tr1 ++ [Evento.esperaLote tempoDeEspera, Evento.tempoEstimado tempo])
        else
          lacoLotes api cnpjs totalLotes fuel (i + tamanhoDoLote) (loteAtual + 1)
            tempoEstimadoTotal finais tr1
    else
      some (resultadosFinais, tr)

/-- The returned value is `none` for JavaScript `undefined` (line 73). -/
def processarLotes (api : Api) (cnpjs : List Identificador) (tr : Traco) :
    Option (Option (List (Option Resultado)) × Traco) :=
  let totalLotes := tetoDiv cnpjs.length tamanhoDoLote
  let tempoEstimadoTotal : Int := (totalLotes : Int) * 60 * 1000
  if cnpjs.length = 0 then
    some (none, tr)
  else
    match lacoLotes api cnpjs totalLotes (cnpjs.length + 1) 0 1 tempoEstimadoTotal [] tr with
    | none => none
    | some (resultadosFinais, tr1) => some (some resultadosFinais, tr1)

/-! ## lerArquivo (lines 101-142) -/

/-- What the XLSX library delivers for lines 110-121: `XLSX.read`, the lookup
of the first sheet and `sheet_to_json` with `header: 1` (every row an array
of cells, the header row included). -/
inductive LeituraXlsx where
  /-- the library throws. -/
  | erro (msg : String)
  /-- `workbook.Sheets[workbook.SheetNames[0]]` is undefined. -/
  | semPlanilha
  /-- the rows of the first sheet. -/
  | linhas (ls : List (List Celula))
  deriving DecidableEq, Repr

/-- An uploaded file as seen by the `FileReader`. -/
inductive Arquivo where
  /-- `reader.onerror` fires. -/
  | ilegivel (erro : String)
  /-- `reader.onload` fires with this content; `xlsx` is what the XLSX library
  makes of the same bytes. -/
  | lido (content : String) (xlsx : LeituraXlsx)
  deriving DecidableEq, Repr

/-- `content.split('\n')` on the characters of the content. -/
def dividirLinhas : List Char → List (List Char)
  | [] => [[]]
  | c :: cs =>
    if c = '\n' then [] :: dividirLinhas cs
    else
      match dividirLinhas cs with
      | [] => [[c]]
      | l :: ls => (c :: l) :: ls

/-- White space and line terminators removed by `String.prototype.trim`. -/
def espacoEmBranco (c : Char) : Bool :=
  let n := c.toNat
  (9 ≤ n && n ≤ 13) || n == 32 || n == 160 || n == 5760 || (8192 ≤ n && n ≤ 8202) ||
    n == 8232 || n == 8233 || n == 8239 || n == 8287 || n == 12288 || n == 65279

/-- `String.prototype.trim`. -/
def trim (l : List Char) : List Char :=
  ((l.dropWhile espacoEmBranco).reverse.dropWhile espacoEmBranco).reverse

/-- The value the promise of `lerArquivo` resolves with, or the error it
rejects with. -/
def lerArquivo : Arquivo → Except String (List Identificador)
  | .ilegivel erro => .error erro
  | .lido content xlsx =>
    if comecaCom "PK".toList content.toList then
      match xlsx with
      | .erro msg => .error msg
      | .semPlanilha => .error "Nenhuma planilha encontrada no arquivo XLSX."
      | .linhas ls =>
        .ok ((ls.filter fun item => item.get? 1 != some (Celula.texto "")).map Identificador.linha)
    else
      .ok ((((dividirLinhas content.toList).map trim).filter fun cnpj => cnpj != []).map
        fun cnpj => Identificador.texto (String.mk cnpj))

/-! ## processarCnpjs (lines 144-175) -/

/-- The component state read and written by `processarCnpjs`.  The third state
variable, `tempoEstimadoTotal`, is written only by `processarLotes` and is
recorded in the log as `Evento.tempoEstimado`. -/
structure App where
  /-- `none` is JavaScript `undefined`. -/
  results : Option (List (Option Resultado))
  processing : Bool
  deriving DecidableEq, Repr

/-- The `try` block of lines 154-169 with its `catch`: the state it leaves
behind.  Line 165 stores what `processarLotes` returned; were that `undefined`,
line 167 would throw into the `catch`, which leaves the state as it is.  The
export started at line 168 is not awaited and is not modelled. -/
def corpoProtegido (api : Api) (arquivo : Arquivo) (app : App) (tr : Traco) :
    Option (App × Traco) :=
  match lerArquivo arquivo with
  | .error _ => some (app, tr)
  | .ok cnpjs =>
    if cnpjs.length = 0 then
      some (app, tr)
    else
      match processarLotes api cnpjs tr with
      | none => none
      | some (resultados, tr1) => some (⟨resultados, app.processing⟩, tr1)

/-- `selectedFile` is `fileInputRef.current.files[0]`, `none` when no file is
selected. -/
def processarCnpjs (api : Api) (selectedFile : Option Arquivo) (app : App) (tr : Traco) :
    Option (App × Traco) :=
  let app1 : App := ⟨app.results, true⟩
  match selectedFile with
  | none => some (app1, tr)
  | some arquivo =>
    match corpoProtegido api arquivo app1 tr with
    | none => none
    | some (app2, tr1) => some (⟨app2.results, false⟩, tr1)

/-! ## Auxiliary definitions used to state and prove the properties -/

/-- One call of `fetchCnpjData` in closed form: the value returned and the
events it adds to the log, when `k` requests have been issued before the call. -/
def passos (api : Api) (cnpj : Identificador) (k : Nat) : Option Resultado × List Evento :=
  let u := urlDe cnpj
  match corpoDoTry cnpj (api k u) with
  | .ok r => (some r, [.requisicao u (api k u)])
  | .error m1 =>
    if includes m1 "429" then
      match corpoDoTry cnpj (api (k + 1) u) with
      | .ok r => (some r, [.requisicao u (api k u), .espera 60000, .requisicao u (api (k + 1) u)])
      | .error m2 =>
        if includes m2 "429" then
          match corpoDoTry cnpj (api (k + 2) u) with
          | .ok r => (some r, [.requisicao u (api k u), .espera 60000,
              .requisicao u (api (k + 1) u), .espera 120000, .requisicao u (api (k + 2) u)])
          | .error _ => (none, [.requisicao u (api k u), .espera 60000,
              .requisicao u (api (k + 1) u), .espera 120000, .requisicao u (api (k + 2) u)])
        else (none, [.requisicao u (api k u), .espera 60000, .requisicao u (api (k + 1) u)])
    else (none, [.requisicao u (api k u)])

/-- The waits of a log, of every kind, in order. -/
def esperasDe (tr : Traco) : List Nat :=
  tr.filterMap fun e => match e with
    | .espera ms => some ms
    | .esperaAdicional ms => some ms
    | .esperaLote ms => some ms
    | _ => none

/-- The answers received in a log, in order. -/
def respostasDe (tr : Traco) : List Resposta :=
  tr.filterMap fun e => match e with
    | .requisicao _ r => some r
    | _ => none

/-- A whole list fetched one identifier after the other, in closed form: the
values pushed and the events added, when `k` requests have been issued before. -/
def passosLista (api : Api) : List Identificador → Nat → List (Option Resultado) × List Evento
  | [], _ => ([], [])
  | cnpj :: resto, k =>
    let p := passos api cnpj k
    let q := passosLista api resto (k + numReq p.2)
    (p.1 :: q.1, p.2 ++ q.2)

/-- Consecutive blocks of three elements, the last one possibly shorter. -/
def fatiar {α : Type} : List α → List (List α)
  | a :: b :: c :: resto => [a, b, c] :: fatiar resto
  | [] => []
  | l => [l]

/-- The events added by the loop of `processarLotes` for the groups `gs`, in
closed form: every group is announced and fetched, and every group that has a
successor is followed by the wait of 60000 ms and the new estimate. -/
def registro (api : Api) (total : Nat) : Nat → Int → Nat → List (List Identificador) → List Evento
  | _, _, _, [] => []
  | loteAtual, tempo, k, g :: gs =>
    let q := (passosLista api g k).2
    if gs.isEmpty then
      Evento.lote loteAtual total g :: q
    else
      (Evento.lote loteAtual total g :: q) ++
        ([Evento.esperaLote 60000, Evento.tempoEstimado (tempo - 60000)] ++
          registro api total (loteAtual + 1) (tempo - 60000) (k + numReq q) gs)

/-- The group announcements of a log: number, announced total and members. -/
def lotesDe (tr : Traco) : List (Nat × Nat × List Identificador) :=
  tr.filterMap fun e => match e with
    | .lote n t g => some (n, t, g)
    | _ => none

/-- The waits between groups of a log. -/
def esperasLoteDe (tr : Traco) : List Nat :=
  tr.filterMap fun e => match e with
    | .esperaLote ms => some ms
    | _ => none

/-- The pacing skeleton of a log: its group announcements and the waits
between groups, in order. -/
def marcosDe (tr : Traco) : Traco :=
  tr.filter fun e => match e with
    | .lote _ _ _ => true
    | .esperaLote _ => true
    | _ => false

/-- The log without the events of the grouping layer: what is left are the
requests and the waits of `fetchCnpjData`. -/
def semRitmo (tr : Traco) : Traco :=
  tr.filter fun e => match e with
    | .lote _ _ _ => false
    | .esperaLote _ => false
    | .tempoEstimado _ => false
    | _ => true

/-- From the wording of the specification ("a non-empty field"): the field is
present and holds something, that is, it is not `null`, not the empty string
and not an empty array or object.  A number or a boolean is a value, whatever
it is. -/
def campoNaoVazio : Option Valor → Bool
  | none => false
  | some .nulo => false
  | some (.booleano _) => true
  | some (.numero _) => true
  | some (.texto s) => s != ""
  | some (.composto json) => json != "[]" && json != "{}"

/-- From the wording of the specification: the success condition of a
response, "HTTP response status indicates success and the decoded body contains
both a non-empty registry-id field and a non-empty status field". -/
def sucessoDeclarado : Resposta → Bool
  | .http true _ (.objeto c s) => campoNaoVazio c && campoNaoVazio s
  | _ => false

/-! ## Lemmas on strings -/

theorem comecaCom_append (p l : List Char) : comecaCom p (p ++ l) = true := by
  induction p with
  | nil => rfl
  | cons c cs ih => simp [comecaCom, ih]

theorem ocorreEm_append_left (p a l : List Char) (h : ocorreEm p l = true) :
    ocorreEm p (a ++ l) = true := by
  induction a with
  | nil => simpa using h
  | cons c cs ih => simp [ocorreEm, ih]

theorem ocorreEm_meio (p a b : List Char) : ocorreEm p (a ++ (p ++ b)) = true := by
  apply ocorreEm_append_left
  cases p with
  | nil => cases b <;> simp [ocorreEm, comecaCom]
  | cons c cs =>
    have h := comecaCom_append (c :: cs) b
    simp only [List.cons_append] at h ⊢
    simp [ocorreEm, h]

theorem includes_append_429 (s : String) : includes (s ++ toString (429 : Nat)) "429" = true := by
  have h : (toString (429 : Nat)) = "429" := by decide
  rw [h]
  unfold includes
  simp only [String.toList, String.data_append]
  simpa using ocorreEm_meio "429".data s.data []

/-! ## Lemmas on the log -/

@[simp] theorem numReq_nil : numReq [] = 0 := rfl

@[simp] theorem numReq_append (a b : Traco) : numReq (a ++ b) = numReq a + numReq b := by
  simp [numReq]

@[simp] theorem numReq_cons_requisicao (u : String) (r : Resposta) (t : Traco) :
    numReq (Evento.requisicao u r :: t) = numReq t + 1 := by
  simp [numReq]

@[simp] theorem numReq_cons_espera (ms : Nat) (t : Traco) :
    numReq (Evento.espera ms :: t) = numReq t := by
  simp [numReq]

/-! ## fetchCnpjData -/

theorem fetchCnpjData_eq (api : Api) (cnpj : Identificador) (tr : Traco) :
    fetchCnpjData api cnpj tr
      = some ((passos api cnpj (numReq tr)).1, tr ++ (passos api cnpj (numReq tr)).2) := by
  unfold fetchCnpjData passos
  simp only [lacoTentativas, maxTentativas]
  cases h1 : corpoDoTry cnpj (api (numReq tr) (urlDe cnpj)) with
  | ok r => simp
  | error m1 =>
    by_cases i1 : includes m1 "429" = true
    · simp [i1]
      cases h2 : corpoDoTry cnpj (api (numReq tr + 1) (urlDe cnpj)) with
      | ok r => simp
      | error m2 =>
        by_cases i2 : includes m2 "429" = true
        · simp [i2]
          cases h3 : corpoDoTry cnpj (api (numReq tr + 1 + 1) (urlDe cnpj)) with
          | ok r => simp [h3]
          | error m3 => simp [h3]
        · simp [i2]
    · simp [i1]

theorem corpoDoTry_ok_iff (cnpj : Identificador) (resp : Resposta) (res : Resultado) :
    corpoDoTry cnpj resp = .ok res ↔
      ∃ status c s, resp = .http true status (.objeto (some c) (some s)) ∧
        verdadeiro (some c) = true ∧ verdadeiro (some s) = true ∧ res = ⟨c, s⟩ := by
  constructor
  · intro h
    cases resp with
    | falha msg => simp [corpoDoTry] at h
    | http ok status corpo =>
      cases ok with
      | false => simp [corpoDoTry] at h
      | true =>
        cases corpo with
        | invalido msg => simp [corpoDoTry] at h
        | nulo msg => simp [corpoDoTry] at h
        | primitivo => simp [corpoDoTry] at h
        | objeto c s =>
          cases c with
          | none => simp [corpoDoTry] at h
          | some c =>
            cases s with
            | none => simp [corpoDoTry] at h
            | some s =>
              simp only [corpoDoTry] at h
              by_cases hv : (verdadeiro (some c) && verdadeiro (some s)) = true
              · simp [hv] at h
                simp only [Bool.and_eq_true] at hv
                exact ⟨status, c, s, rfl, hv.1, hv.2, h.symm⟩
              · simp [hv] at h
  · rintro ⟨status, c, s, rfl, hc, hs, rfl⟩
    simp [corpoDoTry, hc, hs]

theorem corpoDoTry_429 (cnpj : Identificador) (c : Corpo) :
    ∃ msg, corpoDoTry cnpj (.http false 429 c) = .error msg ∧ includes msg "429" = true :=
  ⟨_, by simp only [corpoDoTry]; rfl,
    includes_append_429 ("Erro na requisição para CNPJ " ++ cnpj.paraTexto ++ ": ")⟩

/-- The five ways a call of `fetchCnpjData` can go. -/
theorem passos_casos (api : Api) (cnpj : Identificador) (k : Nat) :
    let u := urlDe cnpj
    (∃ r, corpoDoTry cnpj (api k u) = .ok r ∧
        passos api cnpj k = (some r, [.requisicao u (api k u)])) ∨
    (∃ m1, corpoDoTry cnpj (api k u) = .error m1 ∧ includes m1 "429" = false ∧
        passos api cnpj k = (none, [.requisicao u (api k u)])) ∨
    (∃ m1 r, corpoDoTry cnpj (api k u) = .error m1 ∧ includes m1 "429" = true ∧
        corpoDoTry cnpj (api (k + 1) u) = .ok r ∧
        passos api cnpj k = (some r, [.requisicao u (api k u), .espera 60000,
          .requisicao u (api (k + 1) u)])) ∨
    (∃ m1 m2, corpoDoTry cnpj (api k u) = .error m1 ∧ includes m1 "429" = true ∧
        corpoDoTry cnpj (api (k + 1) u) = .error m2 ∧ includes m2 "429" = false ∧
        passos api cnpj k = (none, [.requisicao u (api k u), .espera 60000,
          .requisicao u (api (k + 1) u)])) ∨
    (∃ m1 m2 r, corpoDoTry cnpj (api k u) = .error m1 ∧ includes m1 "429" = true ∧
        corpoDoTry cnpj (api (k + 1) u) = .error m2 ∧ includes m2 "429" = true ∧
        corpoDoTry cnpj (api (k + 2) u) = .ok r ∧
        passos api cnpj k = (some r, [.requisicao u (api k u), .espera 60000,
          .requisicao u (api (k + 1) u), .espera 120000, .requisicao u (api (k + 2) u)])) ∨
    (∃ m1 m2 m3, corpoDoTry cnpj (api k u) = .error m1 ∧ includes m1 "429" = true ∧
        corpoDoTry cnpj (api (k + 1) u) = .error m2 ∧ includes m2 "429" = true ∧
        corpoDoTry cnpj (api (k + 2) u) = .error m3 ∧
        passos api cnpj k = (none, [.requisicao u (api k u), .espera 60000,
          .requisicao u (api (k + 1) u), .espera 120000, .requisicao u (api (k + 2) u)])) := by
  intro u
  rcases h1 : corpoDoTry cnpj (api k u) with m1 | r
  · cases i1 : includes m1 "429"
    · right; left
      exact ⟨m1, rfl, i1, by simp [passos, u, h1, i1]⟩
    · rcases h2 : corpoDoTry cnpj (api (k + 1) u) with m2 | r
      · cases i2 : includes m2 "429"
        · right; right; right; left
          exact ⟨m1, m2, rfl, i1, rfl, i2, by simp [passos, u, h1, i1, h2, i2]⟩
        · rcases h3 : corpoDoTry cnpj (api (k + 2) u) with m3 | r
          · right; right; right; right; right
            exact ⟨m1, m2, m3, rfl, i1, rfl, i2, rfl, by simp [passos, u, h1, i1, h2, i2, h3]⟩
          · right; right; right; right; left
            exact ⟨m1, m2, r, rfl, i1, rfl, i2, rfl, by simp [passos, u, h1, i1, h2, i2, h3]⟩
      · right; right; left
        exact ⟨m1, r, rfl, i1, rfl, by simp [passos, u, h1, i1, h2]⟩
  · left
    exact ⟨r, rfl, by simp [passos, u, h1]⟩

/-! ## Properties of fetchCnpjData -/

/-- C2 (the code departs from the claim): with an identifier that itself contains
the digits 429, a first answer of HTTP 500 is retried: the call makes three
requests and waits 60000 ms and 120000 ms before returning null. -/
theorem fetchCnpjData_500_cnpj_com_429 :
    fetchCnpjData (fun _ _ => .http false 500 .primitivo) (.texto "11.429.111/0001-91") [] =
      some (none,
        [.requisicao "https://receitaws.com.br/v1/cnpj/11.429.111/0001-91" (.http false 500 .primitivo),
         .espera 60000,
         .requisicao "https://receitaws.com.br/v1/cnpj/11.429.111/0001-91" (.http false 500 .primitivo),
         .espera 120000,
         .requisicao "https://receitaws.com.br/v1/cnpj/11.429.111/0001-91" (.http false 500 .primitivo)]) := by
  decide

/-- C3: when attempt n (n = 1 or 2) is answered with HTTP 429, the loop logs the
request, waits exactly 2^n * 30000 ms and goes on with attempt n + 1; and when
the first two answers are HTTP 429 and the third is a valid body, the call
returns the record of that body after the waits 60000 ms and 120000 ms. -/
theorem fetchCnpjData_backoff (api : Api) (cnpj : Identificador) (tr : Traco) :
    (∀ (n fuel : Nat) (corpo : Corpo), (n = 1 ∨ n = 2) →
        api (numReq tr) (urlDe cnpj) = .http false 429 corpo →
        lacoTentativas api cnpj (fuel + 1) n tr =
          lacoTentativas api cnpj fuel (n + 1)
            (tr ++ [.requisicao (urlDe cnpj) (.http false 429 corpo), .espera (2 ^ n * 30000)])) ∧
    (∀ (c1 c2 : Corpo) (status : Nat) (c s : Valor),
        api (numReq tr) (urlDe cnpj) = .http false 429 c1 →
        api (numReq tr + 1) (urlDe cnpj) = .http false 429 c2 →
        api (numReq tr + 2) (urlDe cnpj) = .http true status (.objeto (some c) (some s)) →
        verdadeiro (some c) = true → verdadeiro (some s) = true →
        fetchCnpjData api cnpj tr = some (some ⟨c, s⟩, tr ++
          [.requisicao (urlDe cnpj) (.http false 429 c1), .espera 60000,
           .requisicao (urlDe cnpj) (.http false 429 c2), .espera 120000,
           .requisicao (urlDe cnpj) (.http true status (.objeto (some c) (some s)))])) := by
  constructor
  · intro n fuel corpo hn h
    obtain ⟨msg, hm, hi⟩ := corpoDoTry_429 cnpj corpo
    rcases hn with rfl | rfl <;> simp [lacoTentativas, maxTentativas, h, hm, hi]
  · intro c1 c2 status c s h1 h2 h3 hc hs
    obtain ⟨m1, hm1, hi1⟩ := corpoDoTry_429 cnpj c1
    obtain ⟨m2, hm2, hi2⟩ := corpoDoTry_429 cnpj c2
    have hm3 : corpoDoTry cnpj (.http true status (.objeto (some c) (some s))) = .ok ⟨c, s⟩ :=
      (corpoDoTry_ok_iff _ _ _).2 ⟨status, c, s, rfl, hc, hs, rfl⟩
    rw [fetchCnpjData_eq]
    simp [passos, h1, h2, h3, hm1, hm2, hm3, hi1, hi2]

/-- Witness of C3: a lookup API that answers HTTP 429 twice and then a valid body. -/
theorem fetchCnpjData_backoff_witness :
    lacoTentativas (fun k _ => if k < 2 then .http false 429 .primitivo
        else .http true 200 (.objeto (some (.texto "11111111000191")) (some (.texto "ATIVA"))))
      (.texto "11.111.111/0001-91") 4 1 [] =
    lacoTentativas (fun k _ => if k < 2 then .http false 429 .primitivo
        else .http true 200 (.objeto (some (.texto "11111111000191")) (some (.texto "ATIVA"))))
      (.texto "11.111.111/0001-91") 3 2
      [.requisicao (urlDe (.texto "11.111.111/0001-91")) (.http false 429 .primitivo),
       .espera (2 ^ 1 * 30000)] ∧
    fetchCnpjData (fun k _ => if k < 2 then .http false 429 .primitivo
        else .http true 200 (.objeto (some (.texto "11111111000191")) (some (.texto "ATIVA"))))
      (.texto "11.111.111/0001-91") [] =
    some (some ⟨.texto "11111111000191", .texto "ATIVA"⟩,
      [.requisicao (urlDe (.texto "11.111.111/0001-91")) (.http false 429 .primitivo),
       .espera 60000,
       .requisicao (urlDe (.texto "11.111.111/0001-91")) (.http false 429 .primitivo),
       .espera 120000,
       .requisicao (urlDe (.texto "11.111.111/0001-91"))
         (.http true 200 (.objeto (some (.texto "11111111000191")) (some (.texto "ATIVA"))))]) :=
  ⟨(fetchCnpjData_backoff _ (.texto "11.111.111/0001-91") []).1 1 3 .primitivo (Or.inl rfl) rfl,
   (fetchCnpjData_backoff _ (.texto "11.111.111/0001-91") []).2 .primitivo .primitivo 200
     (.texto "11111111000191") (.texto "ATIVA") rfl rfl rfl rfl rfl⟩

/-- C4: every call of fetchCnpjData returns a value (never an exception, never a
loop that goes on) after at least one and at most three requests, and when
every answer it received was a failure the value is null. -/
theorem fetchCnpjData_termina (api : Api) (cnpj : Identificador) (tr : Traco) :
    ∃ r d, fetchCnpjData api cnpj tr = some (r, tr ++ d) ∧
      1 ≤ numReq d ∧ numReq d ≤ maxTentativas ∧
      ((∀ resp ∈ respostasDe d, ∃ msg, corpoDoTry cnpj resp = .error msg) → r = none) := by
  refine ⟨_, _, fetchCnpjData_eq api cnpj tr, ?_⟩
  rcases passos_casos api cnpj (numReq tr) with
    ⟨r, h1, hp⟩ | ⟨m1, h1, i1, hp⟩ | ⟨m1, r, h1, i1, h2, hp⟩ | ⟨m1, m2, h1, i1, h2, i2, hp⟩ |
    ⟨m1, m2, r, h1, i1, h2, i2, h3, hp⟩ | ⟨m1, m2, m3, h1, i1, h2, i2, h3, hp⟩ <;>
  simp [respostasDe, maxTentativas, *]

/-- Witness of C4: three answers of HTTP 429 in a row: three requests, all
failed, and the value is null. -/
theorem fetchCnpjData_termina_witness :
    ∃ r d, fetchCnpjData (fun _ _ => .http false 429 .primitivo) (.texto "11.111.111/0001-91") [] =
        some (r, [] ++ d) ∧ numReq d = 3 ∧
      (∀ resp ∈ respostasDe d,
        ∃ msg, corpoDoTry (.texto "11.111.111/0001-91") resp = .error msg) ∧ r = none := by
  obtain ⟨r, d, h, _, _, h3⟩ :=
    fetchCnpjData_termina (fun _ _ => .http false 429 .primitivo) (.texto "11.111.111/0001-91") []
  have he : fetchCnpjData (fun _ _ => .http false 429 .primitivo) (.texto "11.111.111/0001-91") [] =
      some (none, [] ++
        [.requisicao (urlDe (.texto "11.111.111/0001-91")) (.http false 429 .primitivo),
         .espera 60000,
         .requisicao (urlDe (.texto "11.111.111/0001-91")) (.http false 429 .primitivo),
         .espera 120000,
         .requisicao (urlDe (.texto "11.111.111/0001-91")) (.http false 429 .primitivo)]) := by
    decide
  rw [he] at h
  simp only [Option.some.injEq, Prod.mk.injEq, List.nil_append] at h
  obtain ⟨_, hd⟩ := h
  subst hd
  have hall : ∀ resp ∈ respostasDe
      [Evento.requisicao (urlDe (.texto "11.111.111/0001-91")) (.http false 429 .primitivo),
       .espera 60000,
       .requisicao (urlDe (.texto "11.111.111/0001-91")) (.http false 429 .primitivo),
       .espera 120000,
       .requisicao (urlDe (.texto "11.111.111/0001-91")) (.http false 429 .primitivo)],
      ∃ msg, corpoDoTry (.texto "11.111.111/0001-91") resp = .error msg := by
    intro resp hr
    simp only [respostasDe, List.filterMap_cons, List.filterMap_nil, List.mem_cons,
      List.mem_singleton, List.not_mem_nil, or_false, or_self] at hr
    subst hr
    exact ⟨_, rfl⟩
  exact ⟨r, _, by rw [he, h3 hall], by decide, hall, h3 hall⟩

theorem verdadeiro_texto (s : String) : verdadeiro (some (.texto s)) = true ↔ s ≠ "" := by
  simp [verdadeiro]

theorem valida_iff_ok (cnpj : Identificador) (l : List Resposta) (res : Resultado) :
    (∃ status c s, Resposta.http true status (.objeto (some c) (some s)) ∈ l ∧
        verdadeiro (some c) = true ∧ verdadeiro (some s) = true ∧ res = ⟨c, s⟩) ↔
      ∃ resp ∈ l, corpoDoTry cnpj resp = .ok res := by
  constructor
  · rintro ⟨status, c, s, hm, hc, hs, rfl⟩
    exact ⟨_, hm, (corpoDoTry_ok_iff _ _ _).2 ⟨status, c, s, rfl, hc, hs, rfl⟩⟩
  · rintro ⟨resp, hm, hok⟩
    obtain ⟨status, c, s, rfl, hc, hs, rfl⟩ := (corpoDoTry_ok_iff _ _ _).1 hok
    exact ⟨status, c, s, hm, hc, hs, rfl⟩

/-- C5, as amended: the value returned by fetchCnpjData is a record exactly when
one of the answers the call received is a successful HTTP response whose body is
an object whose cnpj field and situacao field are both true for JavaScript (a
string field is true exactly when it is non-empty), and the record then holds
these two fields of that body; in every other case the value is null. -/
theorem fetchCnpjData_sucesso (api : Api) (cnpj : Identificador) (tr : Traco) :
    ∃ r d, fetchCnpjData api cnpj tr = some (r, tr ++ d) ∧
      (∀ res : Resultado, r = some res ↔
        ∃ status c s, Resposta.http true status (.objeto (some c) (some s)) ∈ respostasDe d ∧
          verdadeiro (some c) = true ∧ verdadeiro (some s) = true ∧ res = ⟨c, s⟩) ∧
      (r = none ↔
        ¬ ∃ status c s, Resposta.http true status (.objeto (some c) (some s)) ∈ respostasDe d ∧
          verdadeiro (some c) = true ∧ verdadeiro (some s) = true) ∧
      (∀ t : String, verdadeiro (some (.texto t)) = true ↔ t ≠ "") := by
  have main : ∀ res : Resultado, (passos api cnpj (numReq tr)).1 = some res ↔
      ∃ status c s, Resposta.http true status (.objeto (some c) (some s)) ∈
          respostasDe (passos api cnpj (numReq tr)).2 ∧
        verdadeiro (some c) = true ∧ verdadeiro (some s) = true ∧ res = ⟨c, s⟩ := by
    intro res
    rw [valida_iff_ok cnpj]
    rcases passos_casos api cnpj (numReq tr) with
      ⟨r, h1, hp⟩ | ⟨m1, h1, i1, hp⟩ | ⟨m1, r, h1, i1, h2, hp⟩ | ⟨m1, m2, h1, i1, h2, i2, hp⟩ |
      ⟨m1, m2, r, h1, i1, h2, i2, h3, hp⟩ | ⟨m1, m2, m3, h1, i1, h2, i2, h3, hp⟩ <;>
    simp [respostasDe, *]
  refine ⟨_, _, fetchCnpjData_eq api cnpj tr, main, ?_, verdadeiro_texto⟩
  constructor
  · rintro hn ⟨status, c, s, hm, hc, hs⟩
    have := (main ⟨c, s⟩).2 ⟨status, c, s, hm, hc, hs, rfl⟩
    rw [hn] at this
    exact Option.noConfusion this
  · intro hne
    cases hr : (passos api cnpj (numReq tr)).1 with
    | none => rfl
    | some res =>
      obtain ⟨status, c, s, hm, hc, hs, _⟩ := (main res).1 hr
      exact absurd ⟨status, c, s, hm, hc, hs⟩ hne

/-- C5 as stated fails, in both directions.  A successful response whose body
has cnpj 0 and situacao "ATIVA" has two non-empty fields, yet the call returns
null after this one request; and a successful response whose situacao is an
empty array has no non-empty situacao, yet the call returns a record. -/
theorem fetchCnpjData_nao_vazio_contra :
    (sucessoDeclarado (.http true 200 (.objeto (some (.numero 0)) (some (.texto "ATIVA")))) =
        true ∧
      fetchCnpjData
          (fun _ _ => .http true 200 (.objeto (some (.numero 0)) (some (.texto "ATIVA"))))
          (.texto "11.111.111/0001-91") [] =
        some (none,
          [.requisicao "https://receitaws.com.br/v1/cnpj/11.111.111/0001-91"
            (.http true 200 (.objeto (some (.numero 0)) (some (.texto "ATIVA"))))])) ∧
    (sucessoDeclarado
          (.http true 200
            (.objeto (some (.texto "11111111000191")) (some (.composto "[]")))) = false ∧
      fetchCnpjData
          (fun _ _ => .http true 200
            (.objeto (some (.texto "11111111000191")) (some (.composto "[]"))))
          (.texto "11.111.111/0001-91") [] =
        some (some ⟨.texto "11111111000191", .composto "[]"⟩,
          [.requisicao "https://receitaws.com.br/v1/cnpj/11.111.111/0001-91"
            (.http true 200
              (.objeto (some (.texto "11111111000191")) (some (.composto "[]"))))])) := by
  decide

/-- C9: no call of fetchCnpjData ever takes the extra wait of line 42: its log
has no such event, and the waits it takes are none, or 2^1 * 30000 ms, or
2^1 * 30000 ms followed by 2^2 * 30000 ms. -/
theorem fetchCnpjData_sem_espera_adicional (api : Api) (cnpj : Identificador) (tr : Traco) :
    ∃ r d, fetchCnpjData api cnpj tr = some (r, tr ++ d) ∧
      (∀ ms, Evento.esperaAdicional ms ∉ d) ∧
      (esperasDe d = [] ∨ esperasDe d = [2 ^ 1 * 30000] ∨
        esperasDe d = [2 ^ 1 * 30000, 2 ^ 2 * 30000]) := by
  refine ⟨_, _, fetchCnpjData_eq api cnpj tr, ?_⟩
  rcases passos_casos api cnpj (numReq tr) with
    ⟨r, h1, hp⟩ | ⟨m1, h1, i1, hp⟩ | ⟨m1, r, h1, i1, h2, hp⟩ | ⟨m1, m2, h1, i1, h2, i2, hp⟩ |
    ⟨m1, m2, r, h1, i1, h2, i2, h3, hp⟩ | ⟨m1, m2, m3, h1, i1, h2, i2, h3, hp⟩ <;>
  simp [esperasDe, hp]

/-! ## The loops over identifiers and groups in closed form -/

@[simp] theorem numReq_cons_lote (n t : Nat) (g : List Identificador) (tr : Traco) :
    numReq (Evento.lote n t g :: tr) = numReq tr := by
  simp [numReq]

@[simp] theorem numReq_cons_esperaLote (ms : Nat) (tr : Traco) :
    numReq (Evento.esperaLote ms :: tr) = numReq tr := by
  simp [numReq]

@[simp] theorem numReq_cons_tempoEstimado (ms : Int) (tr : Traco) :
    numReq (Evento.tempoEstimado ms :: tr) = numReq tr := by
  simp [numReq]

theorem lacoDoLote_eq (api : Api) (l : List Identificador) :
    ∀ (acc : List (Option Resultado)) (tr : Traco),
      lacoDoLote api l acc tr =
        some (acc ++ (passosLista api l (numReq tr)).1,
          tr ++ (passosLista api l (numReq tr)).2) := by
  induction l with
  | nil => intro acc tr; simp [lacoDoLote, passosLista]
  | cons c cs ih =>
    intro acc tr
    simp [lacoDoLote, passosLista, fetchCnpjData_eq, ih]

theorem fetchCnpjDataBatchWithInterval_eq (api : Api) (l : List Identificador) (tr : Traco) :
    fetchCnpjDataBatchWithInterval api l tr =
      some ((passosLista api l (numReq tr)).1, tr ++ (passosLista api l (numReq tr)).2) := by
  simp [fetchCnpjDataBatchWithInterval, lacoDoLote_eq]

theorem passosLista_append (api : Api) (a b : List Identificador) :
    ∀ k, passosLista api (a ++ b) k =
      ((passosLista api a k).1 ++ (passosLista api b (k + numReq (passosLista api a k).2)).1,
        (passosLista api a k).2 ++ (passosLista api b (k + numReq (passosLista api a k).2)).2) := by
  induction a with
  | nil => intro k; simp [passosLista]
  | cons c cs ih =>
    intro k
    simp [passosLista, ih, Nat.add_assoc]

theorem passosLista_length (api : Api) (l : List Identificador) :
    ∀ k, (passosLista api l k).1.length = l.length := by
  induction l with
  | nil => intro k; simp [passosLista]
  | cons c cs ih => intro k; simp [passosLista, ih]

theorem fatiar_eq_take_drop {α : Type} (l : List α) (h : l ≠ []) :
    fatiar l = l.take 3 :: fatiar (l.drop 3) := by
  match l, h with
  | [a], _ => simp [fatiar]
  | [a, b], _ => simp [fatiar]
  | a :: b :: c :: resto, _ => simp [fatiar]

theorem fatiar_eq_nil {α : Type} (l : List α) : fatiar l = [] ↔ l = [] := by
  constructor
  · intro h
    by_contra hl
    rw [fatiar_eq_take_drop l hl] at h
    exact List.cons_ne_nil _ _ h
  · rintro rfl
    simp [fatiar]

theorem lacoLotes_eq (api : Api) (cnpjs : List Identificador) (total : Nat) :
    ∀ (fuel i loteAtual : Nat) (tempo : Int) (acc : List (Option Resultado)) (tr : Traco),
      cnpjs.length - i + 3 ≤ 3 * fuel →
      lacoLotes api cnpjs total fuel i loteAtual tempo acc tr =
        some (acc ++ (passosLista api (cnpjs.drop i) (numReq tr)).1,
          tr ++ registro api total loteAtual tempo (numReq tr) (fatiar (cnpjs.drop i))) := by
  intro fuel
  induction fuel with
  | zero => intro i la te acc tr h; omega
  | succ fuel ih =>
    intro i la te acc tr h
    by_cases hi : i < cnpjs.length
    · have hne : cnpjs.drop i ≠ [] := by
        simp [List.drop_eq_nil_iff]; omega
      have hsplit : cnpjs.drop i = (cnpjs.drop i).take 3 ++ cnpjs.drop (i + 3) := by
        rw [← List.drop_drop, List.take_append_drop]
      have hd3 : (cnpjs.drop i).drop 3 = cnpjs.drop (i + 3) := by
        rw [List.drop_drop]
      have hpl := passosLista_append api ((cnpjs.drop i).take 3) (cnpjs.drop (i + 3)) (numReq tr)
      rw [← hsplit] at hpl
      rw [fatiar_eq_take_drop _ hne, hd3]
      by_cases hi3 : i + 3 < cnpjs.length
      · have hne3 : (fatiar (cnpjs.drop (i + 3))).isEmpty = false := by
          rw [Bool.eq_false_iff, Ne, List.isEmpty_iff, fatiar_eq_nil, List.drop_eq_nil_iff]
          omega
        simp only [lacoLotes, hi, hi3, if_true, tamanhoDoLote, fetchCnpjDataBatchWithInterval_eq]
        rw [ih _ _ _ _ _ (by omega)]
        simp [registro, hne3, hpl]
      · have he3 : (fatiar (cnpjs.drop (i + 3))).isEmpty = true := by
          rw [List.isEmpty_iff, fatiar_eq_nil, List.drop_eq_nil_iff]
          omega
        simp only [lacoLotes, hi, hi3, if_true, if_false, tamanhoDoLote,
          fetchCnpjDataBatchWithInterval_eq]
        rw [ih _ _ _ _ _ (by omega)]
        have hnil : cnpjs.drop (i + 3) = [] := by
          rw [List.drop_eq_nil_iff]; omega
        simp [registro, he3, hpl, hnil, passosLista, fatiar]
    · have hnil : cnpjs.drop i = [] := by
        rw [List.drop_eq_nil_iff]; omega
      simp [lacoLotes, hi, hnil, passosLista, fatiar, registro]

theorem processarLotes_eq (api : Api) (cnpjs : List Identificador) (tr : Traco)
    (h : cnpjs ≠ []) :
    processarLotes api cnpjs tr =
      some (some (passosLista api cnpjs (numReq tr)).1,
        tr ++ registro api (tetoDiv cnpjs.length tamanhoDoLote) 1
          ((tetoDiv cnpjs.length tamanhoDoLote : Nat) * 60 * 1000) (numReq tr) (fatiar cnpjs)) := by
  have hl : cnpjs.length ≠ 0 := by
    simpa [List.length_eq_zero] using h
  simp only [processarLotes, hl, if_false]
  rw [lacoLotes_eq api cnpjs _ _ _ _ _ _ _ (by omega)]
  simp

theorem processarLotes_nil (api : Api) (tr : Traco) :
    processarLotes api [] tr = some (none, tr) := by
  simp [processarLotes]

/-! ## The groups -/

theorem fatiar_join {α : Type} (l : List α) : (fatiar l).flatten = l := by
  induction l using fatiar.induct with
  | case1 a b c resto ih => simp [fatiar, ih]
  | case2 => simp [fatiar]
  | case3 l h1 h2 =>
    rw [fatiar]
    · simp
    · exact h1
    · exact h2

theorem fatiar_length {α : Type} (l : List α) : (fatiar l).length = (l.length + 2) / 3 := by
  induction l using fatiar.induct with
  | case1 a b c resto ih => simp [fatiar, ih]; omega
  | case2 => simp [fatiar]
  | case3 l h1 h2 =>
    match l, h1, h2 with
    | [a], _, _ => simp [fatiar]
    | [a, b], _, _ => simp [fatiar]
    | [], _, h => exact absurd rfl h
    | a :: b :: c :: r, h, _ => exact absurd rfl (h a b c r)

theorem fatiar_tamanhos {α : Type} (l : List α) :
    (∀ g ∈ (fatiar l).dropLast, g.length = 3) ∧
      (∀ g ∈ (fatiar l).getLast?, 1 ≤ g.length ∧ g.length ≤ 3) := by
  induction l using fatiar.induct with
  | case1 a b c resto ih =>
    rw [fatiar]
    constructor
    · intro g hg
      cases hf : fatiar resto with
      | nil => simp [hf] at hg
      | cons x xs =>
        rw [hf, List.dropLast_cons₂] at hg
        rcases List.mem_cons.1 hg with rfl | hg
        · rfl
        · exact ih.1 g (by rw [hf]; exact hg)
    · intro g hg
      cases hf : fatiar resto with
      | nil =>
        simp [hf] at hg
        subst hg
        simp
      | cons x xs =>
        rw [hf, List.getLast?_cons_cons] at hg
        exact ih.2 g (by rw [hf]; exact hg)
  | case2 => simp [fatiar]
  | case3 l h1 h2 =>
    match l, h1, h2 with
    | [a], _, _ => simp [fatiar]
    | [a, b], _, _ => simp [fatiar]
    | [], _, h => exact absurd rfl h
    | a :: b :: c :: r, h, _ => exact absurd rfl (h a b c r)

theorem tetoDiv_tres (n : Nat) : tetoDiv n tamanhoDoLote = ⌈(n : ℚ) / 3⌉₊ := by
  unfold tetoDiv tamanhoDoLote
  obtain ⟨q, r, hr, rfl⟩ : ∃ q r, r < 3 ∧ n = 3 * q + r :=
    ⟨n / 3, n % 3, Nat.mod_lt _ (by decide), (Nat.div_add_mod n 3).symm⟩
  interval_cases r
  · have h1 : (3 * q + 0 + 3 - 1) / 3 = q := by omega
    rw [h1]
    symm
    have h2 : ((3 * q + 0 : ℕ) : ℚ) / 3 = (q : ℚ) := by push_cast; ring
    rw [h2, Nat.ceil_natCast]
  · have h1 : (3 * q + 1 + 3 - 1) / 3 = q + 1 := by omega
    rw [h1]
    symm
    rw [Nat.ceil_eq_iff (Nat.succ_ne_zero q)]
    constructor
    · rw [Nat.succ_sub_one]; push_cast; linarith
    · push_cast; linarith
  · have h1 : (3 * q + 2 + 3 - 1) / 3 = q + 1 := by omega
    rw [h1]
    symm
    rw [Nat.ceil_eq_iff (Nat.succ_ne_zero q)]
    constructor
    · rw [Nat.succ_sub_one]; push_cast; linarith
    · push_cast; linarith

/-! ## Projections of the log of a run -/

theorem passos_projecoes (api : Api) (cnpj : Identificador) (k : Nat) :
    lotesDe (passos api cnpj k).2 = [] ∧ esperasLoteDe (passos api cnpj k).2 = [] ∧
      marcosDe (passos api cnpj k).2 = [] ∧
      semRitmo (passos api cnpj k).2 = (passos api cnpj k).2 ∧
      Evento.requisicao (urlDe cnpj) (api k (urlDe cnpj)) ∈ (passos api cnpj k).2 := by
  rcases passos_casos api cnpj k with
    ⟨r, h1, hp⟩ | ⟨m1, h1, i1, hp⟩ | ⟨m1, r, h1, i1, h2, hp⟩ | ⟨m1, m2, h1, i1, h2, i2, hp⟩ |
    ⟨m1, m2, r, h1, i1, h2, i2, h3, hp⟩ | ⟨m1, m2, m3, h1, i1, h2, i2, h3, hp⟩ <;>
  simp [hp, lotesDe, esperasLoteDe, marcosDe, semRitmo]

theorem passosLista_projecoes (api : Api) (l : List Identificador) :
    ∀ k, lotesDe (passosLista api l k).2 = [] ∧ esperasLoteDe (passosLista api l k).2 = [] ∧
      marcosDe (passosLista api l k).2 = [] ∧
      semRitmo (passosLista api l k).2 = (passosLista api l k).2 := by
  induction l with
  | nil => intro k; simp [passosLista, lotesDe, esperasLoteDe, marcosDe, semRitmo]
  | cons c cs ih =>
    intro k
    obtain ⟨a1, a2, a3, a4, _⟩ := passos_projecoes api c k
    obtain ⟨b1, b2, b3, b4⟩ := ih (k + numReq (passos api c k).2)
    unfold lotesDe esperasLoteDe marcosDe semRitmo at *
    simp only [passosLista, List.filterMap_append, List.filter_append, a1, a2, a3, a4, b1, b2,
      b3, b4, List.append_nil, and_self]

theorem passosLista_requisicoes (api : Api) (l : List Identificador) :
    ∀ k, ∀ c ∈ l, ∃ resp, Evento.requisicao (urlDe c) resp ∈ (passosLista api l k).2 := by
  induction l with
  | nil => intro k c hc; simp at hc
  | cons x xs ih =>
    intro k c hc
    rcases List.mem_cons.1 hc with rfl | hc
    · exact ⟨_, by
        simp only [passosLista, List.mem_append]
        exact Or.inl (passos_projecoes api c k).2.2.2.2⟩
    · obtain ⟨resp, hr⟩ := ih (k + numReq (passos api x k).2) c hc
      exact ⟨resp, by
        simp only [passosLista, List.mem_append]
        exact Or.inr hr⟩

theorem registro_semRitmo (api : Api) (total : Nat) (gs : List (List Identificador)) :
    ∀ (la : Nat) (te : Int) (k : Nat),
      semRitmo (registro api total la te k gs) = (passosLista api gs.flatten k).2 := by
  induction gs with
  | nil => intro la te k; simp [registro, semRitmo, passosLista]
  | cons g gs ih =>
    intro la te k
    have hg := (passosLista_projecoes api g k).2.2.2
    cases hgs : gs.isEmpty with
    | true =>
      have : gs = [] := List.isEmpty_iff.1 hgs
      subst this
      unfold semRitmo at hg ⊢
      simp [registro, hg]
    | false =>
      have ih' := ih (la + 1) (te - 60000) (k + numReq (passosLista api g k).2)
      unfold semRitmo at hg ih' ⊢
      simp [registro, hgs, hg, ih', passosLista_append]

theorem registro_lotes (api : Api) (total : Nat) (gs : List (List Identificador)) :
    ∀ (la : Nat) (te : Int) (k : Nat),
      lotesDe (registro api total la te k gs) =
        (gs.enumFrom la).map fun p => (p.1, total, p.2) := by
  induction gs with
  | nil => intro la te k; simp [registro, lotesDe]
  | cons g gs ih =>
    intro la te k
    have hg := (passosLista_projecoes api g k).1
    cases hgs : gs.isEmpty with
    | true =>
      have : gs = [] := List.isEmpty_iff.1 hgs
      subst this
      unfold lotesDe at hg ⊢
      simp [registro, hg]
    | false =>
      have ih' := ih (la + 1) (te - 60000) (k + numReq (passosLista api g k).2)
      unfold lotesDe at hg ih' ⊢
      simp [registro, hgs, hg, ih', List.enumFrom]

theorem registro_esperas (api : Api) (total : Nat) (gs : List (List Identificador)) :
    ∀ (la : Nat) (te : Int) (k : Nat),
      esperasLoteDe (registro api total la te k gs) = List.replicate (gs.length - 1) 60000 := by
  induction gs with
  | nil => intro la te k; simp [registro, esperasLoteDe]
  | cons g gs ih =>
    intro la te k
    have hg := (passosLista_projecoes api g k).2.1
    cases hgs : gs.isEmpty with
    | true =>
      have : gs = [] := List.isEmpty_iff.1 hgs
      subst this
      unfold esperasLoteDe at hg ⊢
      simp [registro, hg]
    | false =>
      have ih' := ih (la + 1) (te - 60000) (k + numReq (passosLista api g k).2)
      have hlen : gs.length = (gs.length - 1) + 1 := by
        cases gs with
        | nil => simp at hgs
        | cons x xs => simp
      unfold esperasLoteDe at hg ih' ⊢
      simp only [registro, hgs, Bool.false_eq_true, if_false, List.filterMap_append,
        List.filterMap_cons, hg, ih', List.filterMap_nil, List.append_nil, List.nil_append,
        List.length_cons, Nat.add_sub_cancel, List.singleton_append]
      conv_rhs => rw [hlen, List.replicate_succ]

theorem registro_marcos (api : Api) (total : Nat) (gs : List (List Identificador)) :
    ∀ (la : Nat) (te : Int) (k : Nat),
      marcosDe (registro api total la te k gs) =
        ((gs.enumFrom la).map fun p => Evento.lote p.1 total p.2).intersperse
          (Evento.esperaLote 60000) := by
  induction gs with
  | nil => intro la te k; simp [registro, marcosDe]
  | cons g gs ih =>
    intro la te k
    have hg := (passosLista_projecoes api g k).2.2.1
    cases gs with
    | nil =>
      unfold marcosDe at hg ⊢
      simp [registro, hg, List.enumFrom]
    | cons g2 gs =>
      have ih' := ih (la + 1) (te - 60000) (k + numReq (passosLista api g k).2)
      unfold marcosDe at hg ih' ⊢
      simp only [registro, List.isEmpty_cons, Bool.false_eq_true, if_false] at ih' ⊢
      simp only [List.filter_append, List.filter_cons, hg, ih', List.enumFrom, List.map_cons,
        List.intersperse_cons₂]
      simp

/-! ## Properties of processarLotes -/

theorem processarLotes_registro (api : Api) (cnpjs : List Identificador) (tr : Traco) :
    ∃ r, processarLotes api cnpjs tr =
      some (r, tr ++ registro api (tetoDiv cnpjs.length tamanhoDoLote) 1
        ((tetoDiv cnpjs.length tamanhoDoLote : Nat) * 60 * 1000) (numReq tr) (fatiar cnpjs)) := by
  by_cases h : cnpjs = []
  · subst h
    exact ⟨none, by simp [processarLotes_nil, fatiar, registro]⟩
  · exact ⟨_, processarLotes_eq api cnpjs tr h⟩

/-- C6: processarLotes announces and fetches exactly ceil(N/3) groups, which is
the total it computed beforehand and announces with every group; the groups are
numbered 1, 2, ...; put one after the other they give the input list; every
group but the last has 3 members and the last has between 1 and 3. -/
theorem processarLotes_grupos (api : Api) (cnpjs : List Identificador) (tr : Traco) :
    ∃ r d, processarLotes api cnpjs tr = some (r, tr ++ d) ∧
      (lotesDe d).length = ⌈(cnpjs.length : ℚ) / 3⌉₊ ∧
      tetoDiv cnpjs.length tamanhoDoLote = (lotesDe d).length ∧
      (∀ p ∈ lotesDe d, p.2.1 = (lotesDe d).length) ∧
      (lotesDe d).map (fun p => p.1) = List.range' 1 (lotesDe d).length ∧
      ((lotesDe d).map fun p => p.2.2).flatten = cnpjs ∧
      (∀ g ∈ ((lotesDe d).map fun p => p.2.2).dropLast, g.length = 3) ∧
      (∀ g ∈ ((lotesDe d).map fun p => p.2.2).getLast?, 1 ≤ g.length ∧ g.length ≤ 3) := by
  obtain ⟨r, hr⟩ := processarLotes_registro api cnpjs tr
  refine ⟨r, _, hr, ?_⟩
  have hmembros : ((List.enumFrom 1 (fatiar cnpjs)).map
      fun p => (p.1, tetoDiv cnpjs.length tamanhoDoLote, p.2)).map (fun p => p.2.2) =
      fatiar cnpjs := by
    rw [List.map_map]
    have : ((fun p : Nat × Nat × List Identificador => p.2.2) ∘
        fun p : Nat × List Identificador => (p.1, tetoDiv cnpjs.length tamanhoDoLote, p.2)) =
        Prod.snd := rfl
    rw [this, List.enumFrom_map_snd]
  have hlen : (fatiar cnpjs).length = tetoDiv cnpjs.length tamanhoDoLote := by
    rw [fatiar_length]; rfl
  rw [registro_lotes, hmembros]
  refine ⟨?_, ?_, ?_, ?_, fatiar_join cnpjs, (fatiar_tamanhos cnpjs).1, (fatiar_tamanhos cnpjs).2⟩
  · rw [List.length_map, List.enumFrom_length, hlen, tetoDiv_tres]
  · rw [List.length_map, List.enumFrom_length, hlen]
  · intro p hp
    rw [List.length_map, List.enumFrom_length, hlen]
    obtain ⟨q, _, rfl⟩ := List.mem_map.1 hp
    rfl
  · rw [List.map_map, List.length_map, List.enumFrom_length]
    have : ((fun p : Nat × Nat × List Identificador => p.1) ∘
        fun p : Nat × List Identificador => (p.1, tetoDiv cnpjs.length tamanhoDoLote, p.2)) =
        Prod.fst := rfl
    rw [this, List.enumFrom_map_fst]

theorem registro_cabeca (api : Api) (total : Nat) (la : Nat) (te : Int) (k : Nat)
    (g : List Identificador) (gs : List (List Identificador)) :
    ∃ resto, registro api total la te k (g :: gs) = Evento.lote la total g :: resto := by
  cases hgs : gs.isEmpty with
  | true => exact ⟨(passosLista api g k).2, by simp [registro, hgs]⟩
  | false =>
    exact ⟨(passosLista api g k).2 ++ Evento.esperaLote 60000 ::
      Evento.tempoEstimado (te - 60000) ::
        registro api total (la + 1) (te - 60000) (k + numReq (passosLista api g k).2) gs,
      by simp [registro, hgs]⟩

theorem registro_blocos (api : Api) (total : Nat) (gs : List (List Identificador)) :
    ∀ (la : Nat) (te : Int) (k j : Nat) (g : List Identificador), gs[j]? = some g →
      ∃ pre pos, registro api total la te k gs =
          pre ++ (Evento.lote (la + j) total g ::
            ((passosLista api g (k + numReq pre)).2 ++ pos)) ∧
        (lotesDe pre).length = j ∧
        (gs[j + 1]? = none → pos = []) ∧
        (∀ g2, gs[j + 1]? = some g2 → ∃ t resto,
          pos = Evento.esperaLote 60000 :: Evento.tempoEstimado t ::
            Evento.lote (la + j + 1) total g2 :: resto) := by
  induction gs with
  | nil => intro la te k j g h; simp at h
  | cons g0 gs ih =>
    intro la te k j g h
    cases j with
    | zero =>
      simp only [List.getElem?_cons_zero, Option.some.injEq] at h
      subst h
      cases gs with
      | nil =>
        refine ⟨[], [], by simp [registro], by simp [lotesDe], fun _ => rfl, ?_⟩
        intro g2 h2
        simp at h2
      | cons g1 gs =>
        obtain ⟨resto, hresto⟩ := registro_cabeca api total (la + 1) (te - 60000)
          (k + numReq (passosLista api g0 k).2) g1 gs
        refine ⟨[], Evento.esperaLote 60000 :: Evento.tempoEstimado (te - 60000) ::
          Evento.lote (la + 1) total g1 :: resto, ?_, by simp [lotesDe], ?_, ?_⟩
        · have hu : registro api total la te k (g0 :: g1 :: gs) =
              (Evento.lote la total g0 :: (passosLista api g0 k).2) ++
                ([Evento.esperaLote 60000, Evento.tempoEstimado (te - 60000)] ++
                  registro api total (la + 1) (te - 60000)
                    (k + numReq (passosLista api g0 k).2) (g1 :: gs)) := by
            simp [registro]
          rw [hu, hresto]
          simp
        · intro h2
          simp at h2
        · intro g2 h2
          simp only [Nat.zero_add, List.getElem?_cons_succ, List.getElem?_cons_zero,
            Option.some.injEq] at h2
          subst h2
          exact ⟨_, _, rfl⟩
    | succ j =>
      simp only [List.getElem?_cons_succ] at h
      have hgs : gs.isEmpty = false := by
        cases gs with
        | nil => simp at h
        | cons x xs => rfl
      obtain ⟨pre, pos, h1, h2, h3, h4⟩ :=
        ih (la + 1) (te - 60000) (k + numReq (passosLista api g0 k).2) j g h
      have hl0 := (passosLista_projecoes api g0 k).1
      refine ⟨(Evento.lote la total g0 :: (passosLista api g0 k).2) ++
        ([Evento.esperaLote 60000, Evento.tempoEstimado (te - 60000)] ++ pre), pos,
        ?_, ?_, ?_, ?_⟩
      · have e1 : la + 1 + j = la + (j + 1) := by omega
        simp [registro, hgs, h1, Nat.add_assoc, e1]
      · unfold lotesDe at hl0 h2 ⊢
        simp [List.filterMap_append, hl0, h2]
      · intro hn
        exact h3 (by simpa using hn)
      · intro g2 hg2
        obtain ⟨t, resto, hp⟩ := h4 g2 (by simpa using hg2)
        have e2 : la + 1 + j + 1 = la + (j + 1) + 1 := by omega
        exact ⟨t, resto, by rw [hp, e2]⟩

/-- C7: a run of processarLotes over N >= 1 identifiers takes exactly
ceil(N/3) - 1 waits between groups, each of 60000 ms.  For every group the log
holds its announcement, then exactly what fetching its members one by one adds
(a request for each member, no wait between groups), and right after that: for
a group that has a successor, the wait of 60000 ms, the new estimate and the
announcement of the next group; for the last group, nothing.  With 4
identifiers there are two groups, of sizes 3 and 1, and one wait. -/
theorem processarLotes_esperas (api : Api) (cnpjs : List Identificador) (tr : Traco)
    (h : cnpjs ≠ []) :
    ∃ r d, processarLotes api cnpjs tr = some (r, tr ++ d) ∧
      (esperasLoteDe d).length + 1 = ⌈(cnpjs.length : ℚ) / 3⌉₊ ∧
      (∀ ms ∈ esperasLoteDe d, ms = 60000) ∧
      marcosDe d = ((lotesDe d).map fun p => Evento.lote p.1 p.2.1 p.2.2).intersperse
        (Evento.esperaLote 60000) ∧
      (cnpjs.length = 4 →
        (lotesDe d).map (fun p => p.2.2.length) = [3, 1] ∧ esperasLoteDe d = [60000]) ∧
      (∀ (j n t : Nat) (g : List Identificador), (lotesDe d)[j]? = some (n, t, g) →
        ∃ pre rs passo pos,
          d = pre ++ (Evento.lote n t g :: (passo ++ pos)) ∧
          (lotesDe pre).length = j ∧
          fetchCnpjDataBatchWithInterval api g (tr ++ pre ++ [Evento.lote n t g]) =
            some (rs, (tr ++ pre ++ [Evento.lote n t g]) ++ passo) ∧
          esperasLoteDe passo = [] ∧
          (∀ c ∈ g, ∃ resp, Evento.requisicao (urlDe c) resp ∈ passo) ∧
          ((lotesDe d)[j + 1]? = none → pos = []) ∧
          (∀ (n2 t2 : Nat) (g2 : List Identificador), (lotesDe d)[j + 1]? = some (n2, t2, g2) →
            ∃ te resto, pos = Evento.esperaLote 60000 :: Evento.tempoEstimado te ::
              Evento.lote n2 t2 g2 :: resto)) := by
  obtain ⟨r, hr⟩ := processarLotes_registro api cnpjs tr
  refine ⟨r, _, hr, ?_⟩
  have hlen : (fatiar cnpjs).length = tetoDiv cnpjs.length tamanhoDoLote := by
    rw [fatiar_length]; rfl
  have hpos : 0 < (fatiar cnpjs).length := by
    rw [List.length_pos]
    exact fun hf => h ((fatiar_eq_nil cnpjs).1 hf)
  rw [registro_esperas, registro_marcos, registro_lotes]
  refine ⟨?_, ?_, ?_, ?_, ?_⟩
  · rw [List.length_replicate, ← tetoDiv_tres, ← hlen]
    omega
  · intro ms hms
    exact (List.mem_replicate.1 hms).2
  · rw [List.map_map]
    rfl
  · intro h4
    match cnpjs, h4 with
    | [a, b, c, d], _ => simp [fatiar, List.enumFrom]
  · intro j n t g hj
    simp only [List.getElem?_map, List.getElem?_enumFrom, Option.map_map] at hj ⊢
    cases hg : (fatiar cnpjs)[j]? with
    | none => simp [hg] at hj
    | some g0 =>
      simp only [hg, Option.map_some', Function.comp_apply, Option.some.injEq,
        Prod.mk.injEq] at hj
      obtain ⟨rfl, rfl, rfl⟩ := hj
      obtain ⟨pre, pos, h1, h2, h3, h4⟩ := registro_blocos api
        (tetoDiv cnpjs.length tamanhoDoLote) (fatiar cnpjs) 1
        ((tetoDiv cnpjs.length tamanhoDoLote : Nat) * 60 * 1000) (numReq tr) j g0 hg
      refine ⟨pre, (passosLista api g0 (numReq tr + numReq pre)).1,
        (passosLista api g0 (numReq tr + numReq pre)).2, pos, h1, h2, ?_,
        (passosLista_projecoes api g0 _).2.1,
        passosLista_requisicoes api g0 _, ?_, ?_⟩
      · rw [fetchCnpjDataBatchWithInterval_eq]
        simp [Nat.add_assoc]
      · intro hn
        apply h3
        cases hg2 : (fatiar cnpjs)[j + 1]? with
        | none => rfl
        | some x => simp [hg2] at hn
      · intro n2 t2 g2 hs
        cases hg2 : (fatiar cnpjs)[j + 1]? with
        | none => simp [hg2] at hs
        | some x =>
          simp only [hg2, Option.map_some', Function.comp_apply, Option.some.injEq,
            Prod.mk.injEq] at hs
          obtain ⟨rfl, rfl, rfl⟩ := hs
          obtain ⟨te, resto, hp⟩ := h4 x hg2
          exact ⟨te, resto, by rw [hp, Nat.add_assoc]⟩

/-- Witness of C7: four identifiers; the one wait stands after the three
requests of the first group and before the request of the second. -/
theorem processarLotes_esperas_witness :
    ∃ r d, processarLotes (fun _ _ => .http false 500 .primitivo)
        [.texto "11.111.111/0001-91", .texto "22.222.222/0001-92", .texto "33.333.333/0001-93",
          .texto "44.444.444/0001-94"] [] = some (r, [] ++ d) ∧
      (lotesDe d).map (fun p => p.2.2.length) = [3, 1] ∧ esperasLoteDe d = [60000] ∧
      d = [.lote 1 2 [.texto "11.111.111/0001-91", .texto "22.222.222/0001-92",
            .texto "33.333.333/0001-93"],
          .requisicao (urlDe (.texto "11.111.111/0001-91")) (.http false 500 .primitivo),
          .requisicao (urlDe (.texto "22.222.222/0001-92")) (.http false 500 .primitivo),
          .requisicao (urlDe (.texto "33.333.333/0001-93")) (.http false 500 .primitivo),
          .esperaLote 60000,
          .tempoEstimado 60000,
          .lote 2 2 [.texto "44.444.444/0001-94"],
          .requisicao (urlDe (.texto "44.444.444/0001-94")) (.http false 500 .primitivo)] := by
  obtain ⟨r, d, h1, _, _, _, h5, _⟩ := processarLotes_esperas
    (fun _ _ => .http false 500 .primitivo)
    [.texto "11.111.111/0001-91", .texto "22.222.222/0001-92", .texto "33.333.333/0001-93",
      .texto "44.444.444/0001-94"] [] (by decide)
  have he : processarLotes (fun _ _ => .http false 500 .primitivo)
      [.texto "11.111.111/0001-91", .texto "22.222.222/0001-92", .texto "33.333.333/0001-93",
        .texto "44.444.444/0001-94"] [] =
      some (some [none, none, none, none], [] ++
        [.lote 1 2 [.texto "11.111.111/0001-91", .texto "22.222.222/0001-92",
            .texto "33.333.333/0001-93"],
          .requisicao (urlDe (.texto "11.111.111/0001-91")) (.http false 500 .primitivo),
          .requisicao (urlDe (.texto "22.222.222/0001-92")) (.http false 500 .primitivo),
          .requisicao (urlDe (.texto "33.333.333/0001-93")) (.http false 500 .primitivo),
          .esperaLote 60000,
          .tempoEstimado 60000,
          .lote 2 2 [.texto "44.444.444/0001-94"],
          .requisicao (urlDe (.texto "44.444.444/0001-94")) (.http false 500 .primitivo)]) := by
    decide
  have hd := h1
  rw [he] at hd
  simp only [Option.some.injEq, Prod.mk.injEq, List.nil_append] at hd
  exact ⟨r, d, h1, (h5 rfl).1, (h5 rfl).2, hd.2.symm⟩

/-! ## Where each result of a run comes from -/

theorem passosLista_posicao (api : Api) (l : List Identificador) :
    ∀ (k i : Nat) (c : Identificador), l[i]? = some c →
      ∃ pre pos, (passosLista api l k).2 = pre ++ ((passos api c (k + numReq pre)).2 ++ pos) ∧
        (passosLista api l k).1[i]? = some (passos api c (k + numReq pre)).1 := by
  induction l with
  | nil => intro k i c h; simp at h
  | cons x xs ih =>
    intro k i c h
    cases i with
    | zero =>
      simp only [List.getElem?_cons_zero, Option.some.injEq] at h
      subst h
      exact ⟨[], (passosLista api xs (k + numReq (passos api x k).2)).2, by simp [passosLista],
        by simp [passosLista]⟩
    | succ i =>
      simp only [List.getElem?_cons_succ] at h
      obtain ⟨pre, pos, h1, h2⟩ := ih (k + numReq (passos api x k).2) i c h
      refine ⟨(passos api x k).2 ++ pre, pos, ?_, ?_⟩
      · simp only [passosLista, h1, numReq_append, Nat.add_assoc, List.append_assoc]
      · simp only [passosLista, List.getElem?_cons_succ, h2, numReq_append, Nat.add_assoc]

theorem registro_posicao (api : Api) (total : Nat) (gs : List (List Identificador)) :
    ∀ (la : Nat) (te : Int) (k i : Nat) (c : Identificador), gs.flatten[i]? = some c →
      ∃ pre pos, registro api total la te k gs =
          pre ++ ((passos api c (k + numReq pre)).2 ++ pos) ∧
        (passosLista api gs.flatten k).1[i]? = some (passos api c (k + numReq pre)).1 := by
  induction gs with
  | nil => intro la te k i c h; simp at h
  | cons g gs ih =>
    intro la te k i c h
    rw [List.flatten_cons] at h ⊢
    rw [passosLista_append]
    by_cases hi : i < g.length
    · rw [List.getElem?_append_left hi] at h
      obtain ⟨pre, pos, h1, h2⟩ := passosLista_posicao api g k i c h
      have hi' : i < (passosLista api g k).1.length := by
        rw [passosLista_length]; exact hi
      cases hgs : gs.isEmpty with
      | true =>
        refine ⟨Evento.lote la total g :: pre, pos, ?_, ?_⟩
        · simp [registro, hgs, h1]
        · simp only [List.getElem?_append_left hi', h2, numReq_cons_lote]
      | false =>
        refine ⟨Evento.lote la total g :: pre, pos ++
          ([Evento.esperaLote 60000, Evento.tempoEstimado (te - 60000)] ++
            registro api total (la + 1) (te - 60000) (k + numReq (passosLista api g k).2) gs),
          ?_, ?_⟩
        · simp [registro, hgs, h1]
        · simp only [List.getElem?_append_left hi', h2, numReq_cons_lote]
    · have hi' : (passosLista api g k).1.length ≤ i := by
        rw [passosLista_length]; omega
      rw [List.getElem?_append_right (by omega)] at h
      have hgs : gs.isEmpty = false := by
        cases gs with
        | nil => simp at h
        | cons x xs => rfl
      obtain ⟨pre, pos, h1, h2⟩ :=
        ih (la + 1) (te - 60000) (k + numReq (passosLista api g k).2) (i - g.length) c h
      refine ⟨(Evento.lote la total g :: (passosLista api g k).2) ++
        ([Evento.esperaLote 60000, Evento.tempoEstimado (te - 60000)] ++ pre), pos, ?_, ?_⟩
      · simp [registro, hgs, h1, Nat.add_assoc]
      · rw [List.getElem?_append_right hi', passosLista_length, h2]
        simp [Nat.add_assoc]

/-- C1: for a non-empty list, processarLotes returns a list as long as the
input; it is the list that the one-by-one loop of
fetchCnpjDataBatchWithInterval returns for the whole input when the lookup API
gives the same answers, and the two runs make the same requests and take the
same backoff waits; the element at every position is the value returned by the
call of fetchCnpjData that the run makes for the identifier at that position;
and every identifier of the input is requested, whatever the earlier ones gave. -/
theorem processarLotes_resultados (api : Api) (cnpjs : List Identificador) (tr : Traco)
    (h : cnpjs ≠ []) :
    ∃ rs d d1, processarLotes api cnpjs tr = some (some rs, tr ++ d) ∧
      rs.length = cnpjs.length ∧
      fetchCnpjDataBatchWithInterval api cnpjs tr = some (rs, tr ++ d1) ∧
      semRitmo d = d1 ∧
      (∀ (i : Nat) (c : Identificador), cnpjs[i]? = some c → ∃ pre passo pos r,
        d = pre ++ (passo ++ pos) ∧
          fetchCnpjData api c (tr ++ pre) = some (r, (tr ++ pre) ++ passo) ∧
          rs[i]? = some r) ∧
      (∀ c ∈ cnpjs, ∃ resp, Evento.requisicao (urlDe c) resp ∈ d) := by
  refine ⟨_, _, _, processarLotes_eq api cnpjs tr h, passosLista_length api cnpjs _,
    fetchCnpjDataBatchWithInterval_eq api cnpjs tr, ?_, ?_, ?_⟩
  · rw [registro_semRitmo, fatiar_join]
  · intro i c hc
    rw [← fatiar_join cnpjs] at hc
    obtain ⟨pre, pos, h1, h2⟩ := registro_posicao api (tetoDiv cnpjs.length tamanhoDoLote)
      (fatiar cnpjs) 1 ((tetoDiv cnpjs.length tamanhoDoLote : Nat) * 60 * 1000) (numReq tr) i c hc
    rw [fatiar_join] at h2
    exact ⟨pre, _, pos, _, h1, by rw [fetchCnpjData_eq, numReq_append], h2⟩
  · intro c hc
    obtain ⟨resp, hr⟩ := passosLista_requisicoes api cnpjs (numReq tr) c hc
    refine ⟨resp, ?_⟩
    have hs := registro_semRitmo api (tetoDiv cnpjs.length tamanhoDoLote) (fatiar cnpjs) 1
      ((tetoDiv cnpjs.length tamanhoDoLote : Nat) * 60 * 1000) (numReq tr)
    rw [fatiar_join] at hs
    rw [← hs] at hr
    exact (List.mem_filter.1 hr).1

/-- Witness of C1: four identifiers, the second of which fails. -/
theorem processarLotes_resultados_witness :
    ∃ d, processarLotes
        (fun k _ => if k = 1 then .http false 500 .primitivo
          else .http true 200 (.objeto (some (.texto "x")) (some (.texto "ATIVA"))))
        [.texto "11.111.111/0001-91", .texto "22.222.222/0001-92", .texto "33.333.333/0001-93",
          .texto "44.444.444/0001-94"] [] =
      some (some [some ⟨.texto "x", .texto "ATIVA"⟩, none, some ⟨.texto "x", .texto "ATIVA"⟩,
        some ⟨.texto "x", .texto "ATIVA"⟩], [] ++ d) := by
  obtain ⟨rs, d, d1, h1, _, h3, _⟩ := processarLotes_resultados
    (fun k _ => if k = 1 then .http false 500 .primitivo
      else .http true 200 (.objeto (some (.texto "x")) (some (.texto "ATIVA"))))
    [.texto "11.111.111/0001-91", .texto "22.222.222/0001-92", .texto "33.333.333/0001-93",
      .texto "44.444.444/0001-94"] [] (by decide)
  have he : fetchCnpjDataBatchWithInterval
      (fun k _ => if k = 1 then .http false 500 .primitivo
        else .http true 200 (.objeto (some (.texto "x")) (some (.texto "ATIVA"))))
      [.texto "11.111.111/0001-91", .texto "22.222.222/0001-92", .texto "33.333.333/0001-93",
        .texto "44.444.444/0001-94"] [] =
      some ([some ⟨.texto "x", .texto "ATIVA"⟩, none, some ⟨.texto "x", .texto "ATIVA"⟩,
        some ⟨.texto "x", .texto "ATIVA"⟩],
        [.requisicao (urlDe (.texto "11.111.111/0001-91"))
            (.http true 200 (.objeto (some (.texto "x")) (some (.texto "ATIVA")))),
         .requisicao (urlDe (.texto "22.222.222/0001-92")) (.http false 500 .primitivo),
         .requisicao (urlDe (.texto "33.333.333/0001-93"))
            (.http true 200 (.objeto (some (.texto "x")) (some (.texto "ATIVA")))),
         .requisicao (urlDe (.texto "44.444.444/0001-94"))
            (.http true 200 (.objeto (some (.texto "x")) (some (.texto "ATIVA"))))]) := by
    decide
  rw [he] at h3
  simp only [Option.some.injEq, Prod.mk.injEq] at h3
  rw [h3.1]
  exact ⟨d, h1⟩

/-! ## The error message and the identifier -/

theorem comecaCom_antes (c : Char) (b : List Char) (p : List Char) (hc : c ∉ p) :
    ∀ a : List Char, comecaCom p (a ++ c :: b) = true → comecaCom p a = true := by
  induction p with
  | nil => intro a _; cases a <;> rfl
  | cons x ps ih =>
    intro a h
    cases a with
    | nil =>
      simp only [List.nil_append, comecaCom, Bool.and_eq_true, beq_iff_eq] at h
      exact absurd (h.1 ▸ List.mem_cons_self x ps) hc
    | cons y a =>
      simp only [List.cons_append, comecaCom, Bool.and_eq_true, beq_iff_eq] at h ⊢
      exact ⟨h.1, ih (fun hm => hc (List.mem_cons_of_mem _ hm)) a h.2⟩

theorem comecaCom_ocorreEm (p a : List Char) (h : comecaCom p a = true) :
    ocorreEm p a = true := by
  cases a with
  | nil => simpa [ocorreEm] using h
  | cons y a => simp [ocorreEm, h]

theorem ocorreEm_separado (c : Char) (b : List Char) (p : List Char) (hc : c ∉ p) :
    ∀ a : List Char, ocorreEm p (a ++ c :: b) = true →
      ocorreEm p a = true ∨ ocorreEm p b = true := by
  intro a
  induction a with
  | nil =>
    intro h
    simp only [List.nil_append, ocorreEm, Bool.or_eq_true] at h
    rcases h with h | h
    · exact Or.inl (comecaCom_ocorreEm p [] (comecaCom_antes c b p hc [] h))
    · exact Or.inr h
  | cons y a ih =>
    intro h
    simp only [List.cons_append, ocorreEm, Bool.or_eq_true] at h
    rcases h with h | h
    · exact Or.inl (comecaCom_ocorreEm p (y :: a) (comecaCom_antes c b p hc (y :: a) h))
    · rcases ih h with h | h
      · exact Or.inl (by simp [ocorreEm, h])
      · exact Or.inr h

theorem mensagem_500_sem_429 (x : String) (hx : includes x "429" = false) :
    includes ("Erro na requisição para CNPJ " ++ x ++ ": " ++ toString (500 : Nat)) "429" =
      false := by
  have h500 : toString (500 : Nat) = "500" := by decide
  rw [h500, Bool.eq_false_iff]
  intro h
  unfold includes at h hx
  have h2 : ocorreEm "429".data
      ("Erro na requisição para CNPJ".data ++ ' ' :: (x.data ++ ':' :: " 500".data)) = true := by
    simpa [String.toList, String.data_append] using h
  rcases ocorreEm_separado ' ' _ "429".data (by decide) _ h2 with h3 | h3
  · exact absurd h3 (by decide)
  · rcases ocorreEm_separado ':' _ "429".data (by decide) _ h3 with h4 | h4
    · rw [String.toList] at hx
      rw [String.toList, h4] at hx
      exact Bool.noConfusion hx
    · exact absurd h4 (by decide)

/-- For an identifier whose text does not contain the digits 429, a first
answer of HTTP 500 ends the call at once: one request, no wait, null. -/
theorem fetchCnpjData_500_sem_429 (api : Api) (cnpj : Identificador) (tr : Traco)
    (corpo : Corpo) (h : api (numReq tr) (urlDe cnpj) = .http false 500 corpo)
    (hc : includes cnpj.paraTexto "429" = false) :
    fetchCnpjData api cnpj tr =
      some (none, tr ++ [.requisicao (urlDe cnpj) (.http false 500 corpo)]) := by
  rw [fetchCnpjData_eq]
  simp [passos, h, corpoDoTry, mensagem_500_sem_429 _ hc]

/-! ## lerArquivo and processarCnpjs -/

/-- C8 (the code departs from the claim): for a spreadsheet lerArquivo resolves
with the rows themselves, filtered on their second cell, not with the values of
that cell; the row then goes as a whole into the URL of the request. -/
theorem lerArquivo_planilha_devolve_linhas :
    lerArquivo (.lido "PK" (.linhas
        [[.texto "Empresa A", .texto "11.111.111/0001-91"], [.texto "Empresa B", .texto ""]])) =
      .ok [.linha [.texto "Empresa A", .texto "11.111.111/0001-91"]] ∧
    lerArquivo (.lido "PK" (.linhas
        [[.texto "Empresa A", .texto "11.111.111/0001-91"], [.texto "Empresa B", .texto ""]])) ≠
      .ok [.texto "11.111.111/0001-91"] ∧
    urlDe (.linha [.texto "Empresa A", .texto "11.111.111/0001-91"]) =
      "https://receitaws.com.br/v1/cnpj/Empresa A,11.111.111/0001-91" := by
  have e : lerArquivo (.lido "PK" (.linhas
      [[.texto "Empresa A", .texto "11.111.111/0001-91"], [.texto "Empresa B", .texto ""]])) =
      .ok [.linha [.texto "Empresa A", .texto "11.111.111/0001-91"]] := rfl
  refine ⟨e, ?_, by decide⟩
  rw [e]
  intro h
  simp at h

/-- C10 (the code departs from the claim): with no file selected processarCnpjs
returns at line 151, before the try block whose finally clause resets the flag,
and the processing flag set at line 145 stays true. -/
theorem processarCnpjs_sem_arquivo (api : Api) (app : App) (tr : Traco) :
    ∃ app1, processarCnpjs api none app tr = some (app1, tr) ∧ app1.processing = true :=
  ⟨_, rfl, rfl⟩

/-- Every call of processarCnpjs with a file selected ends with the processing
flag false: a read error, a file without identifiers, or a complete run. -/
theorem processarCnpjs_com_arquivo (api : Api) (arquivo : Arquivo) (app : App) (tr : Traco) :
    ∃ app1 tr1, processarCnpjs api (some arquivo) app tr = some (app1, tr1) ∧
      app1.processing = false := by
  cases hl : lerArquivo arquivo with
  | error e => simp [processarCnpjs, corpoProtegido, hl]
  | ok cnpjs =>
    by_cases hn : cnpjs = []
    · subst hn
      simp [processarCnpjs, corpoProtegido, hl]
    · have hlen : cnpjs.length ≠ 0 := by
        simpa [List.length_eq_zero] using hn
      simp [processarCnpjs, corpoProtegido, hl, hn, processarLotes_eq api cnpjs tr hn]

end ConsultaCNPJ
